import Mathlib

/-!
Shallow embedding of `easybuild/easyblocks/p/psi.py` (class `EB_PSI`,
an EasyBuild easyblock for the PSI quantum chemistry suite).

The easyblock overrides five hooks of the host framework's
`ConfigureMake` base class: `__init__`, `extra_options`,
`configure_step`, `install_step`, `sanity_check_step` and
`make_module_extra`.  Host collaborators the easyblock cannot control
(`os.getenv`, `get_software_root`, success of `os.makedirs`/`os.chdir`,
the inherited step implementations, the module generator) are modelled
as components of a `Host` record or as function parameters.  Side
effects performed by a step (directory creation, chdir, configure-option
updates, environment-variable writes, fatal log errors, calls into the
inherited step) are recorded in an explicit `Effect` trace.  A fatal
`self.log.error` call aborts the step, which the embedding renders as an
`Except.error` result carrying the logged message.
-/

namespace Psi

/-- Python `posixpath.join a b`: `b` if absolute, otherwise `a` and `b`
joined with a single separator. -/
def osPathJoin (a b : String) : String :=
  if b.data.head? = some '/' then b
  else if a = "" then a ++ b
  else if a.data.getLast? = some '/' then a ++ b
  else a ++ "/" ++ b

/-- Python `s.rstrip(os.sep)`: drop every trailing `/`. -/
def rstripSlash (s : String) : String :=
  String.mk ((s.data.reverse.dropWhile fun c => c == '/').reverse)

/-- Python `os.path.basename p` on POSIX: the part after the last `/`. -/
def osPathBasename (p : String) : String :=
  String.mk ((p.data.reverse.takeWhile fun c => c != '/').reverse)

/-- Python `"%s" % x` for an optional string `x`: `None` renders as
the literal text `None`. -/
def pyStrOfOpt : Option String → String
  | none => "None"
  | some s => s

/-- Python truthiness test `not x` for a string-or-None value:
`None` and the empty string are falsy. -/
def pyFalsy : Option String → Bool
  | none => true
  | some s => s.isEmpty

/-- Python `version.split('.')[0]`: the leading run of characters of
`s` before the first `.` (all of `s` when there is no dot). -/
def pyMajorVersion (s : String) : String :=
  String.mk (s.data.takeWhile fun c => c != '.')

/-- Scalar state of an `EB_PSI` instance: the three fields introduced in
`EB_PSI.__init__`. -/
structure PsiState where
  psi_srcdir : Option String
  install_psi_objdir : Option String
  install_psi_srcdir : Option String
deriving Repr, DecidableEq

/-- `EB_PSI.__init__`: the three custom fields start out as `None`. -/
def EB_PSI_init : PsiState :=
  { psi_srcdir := none, install_psi_objdir := none, install_psi_srcdir := none }

/-- One observable side effect of `configure_step`. -/
inductive Effect where
  | makedirs (path : String)
  | chdir (path : String)
  | updateConfigopts (value : String)
  | setvar (name value : String)
  | logError (msg : String)
  | superConfigureStep (cmdPref : String)
deriving Repr, DecidableEq

/-- The host environment `configure_step` runs against: the builder
object's directories and config entries, the toolchain option, the
process environment (`os.getenv`), the module lookup
(`get_software_root`) and whether `os.makedirs` / `os.chdir` succeed. -/
structure Host where
  builddir : String
  installdir : String
  startDir : String
  version : String
  usempi : Bool
  getenv : String → Option String
  softwareRoot : String → Option String
  makedirsOk : Bool
  chdirOk : Bool

/-- Outcome of a run of `configure_step`: the effect trace, and either
the updated instance state or the message of the fatal error that
aborted the step. -/
structure ConfigResult where
  trace : List Effect
  result : Except String PsiState

/-- Message logged when preparing the out-of-source build fails
(the `except OSError` branch of `configure_step`). -/
def prepMsg : String := "Failed to prepare for configuration of PSI build"

/-- `EB_PSI.configure_step`, line by line: create `<builddir>/obj` and
chdir into it (an `OSError` is fatal); pick the Fortran compiler
variable from the `usempi` toolchain option; append the six
`--with-<opt>='<env var>'` configure options and the `--with-opt`
option carrying `-DMPICH_IGNORE_CXX_SEEK`; require the `Python` and
`Boost` software roots (a missing one is a fatal log error), exporting
`PYTHON` and appending `--with-boost` and `--with-plugins`; record the
install-time source/object paths in the instance fields and export them
as `PSI_OBJ_INSTALL_DIR` / `PSI_SRC_INSTALL_DIR`; finally invoke the
inherited `configure_step` with `cmd_prefix` set to `start_dir`. -/
def configure_step (h : Host) : ConfigResult :=
  let objdir := osPathJoin h.builddir "obj"
  if h.makedirsOk = false then
    { trace := [Effect.logError prepMsg], result := Except.error prepMsg }
  else if h.chdirOk = false then
    { trace := [Effect.makedirs objdir, Effect.logError prepMsg],
      result := Except.error prepMsg }
  else
    let fcompvar := if h.usempi then "F77_SEQ" else "F77"
    let opt_vars : List (String × String) :=
      [("cc", "CC"), ("cxx", "CXX"), ("fc", fcompvar), ("libdirs", "LDFLAGS"),
        ("blas", "LIBBLAS_MT"), ("lapack", "LIBLAPACK_MT")]
    let flagEffects : List Effect := opt_vars.map fun p =>
      Effect.updateConfigopts ("--with-" ++ p.1 ++ "='" ++ pyStrOfOpt (h.getenv p.2) ++ "'")
    let optEffect : Effect := Effect.updateConfigopts
      ("--with-opt='" ++ pyStrOfOpt (h.getenv "CFLAGS") ++ " -DMPICH_IGNORE_CXX_SEEK'")
    let headTrace : List Effect :=
      Effect.makedirs objdir :: Effect.chdir objdir :: (flagEffects ++ [optEffect])
    let pythonroot := h.softwareRoot "Python"
    if pyFalsy pythonroot then
      { trace := headTrace ++ [Effect.logError "Python module not loaded."],
        result := Except.error "Python module not loaded." }
    else
      let pyTrace : List Effect := headTrace ++
        [Effect.setvar "PYTHON" (osPathJoin (osPathJoin (pyStrOfOpt pythonroot) "bin") "python")]
      let boostroot := h.softwareRoot "Boost"
      if pyFalsy boostroot then
        { trace := pyTrace ++ [Effect.logError "Boost module not loaded."],
          result := Except.error "Boost module not loaded." }
      else
        let psiSrc := osPathBasename (rstripSlash h.startDir)
        let objInstall := osPathJoin h.installdir "obj"
        let srcInstall := osPathJoin h.installdir psiSrc
        { trace := pyTrace ++
            [Effect.updateConfigopts ("--with-boost=" ++ pyStrOfOpt boostroot),
             Effect.updateConfigopts "--with-plugins",
             Effect.setvar "PSI_OBJ_INSTALL_DIR" objInstall,
             Effect.setvar "PSI_SRC_INSTALL_DIR" srcInstall,
             Effect.superConfigureStep h.startDir],
          result := Except.ok
            { psi_srcdir := some psiSrc,
              install_psi_objdir := some objInstall,
              install_psi_srcdir := some srcInstall } }

/-- The value of an `updateConfigopts` effect, `none` for the others. -/
def configoptOf : Effect → Option String
  | Effect.updateConfigopts v => some v
  | _ => none

/-- The configure options appended by a run of `configure_step`, in
order. -/
def configopts (h : Host) : List String :=
  (configure_step h).trace.filterMap configoptOf

/-- A directory tree: a regular file with contents, or a directory
mapping entry names to subtrees. -/
inductive FTree where
  | file (content : String) : FTree
  | dir (entries : List (String × FTree)) : FTree

/-- A fragment of the filesystem: an association of absolute paths to
the directory trees rooted there (later entries shadowed by earlier
ones, as updates are consed on the front). -/
abbrev FS := List (String × FTree)

/-- Look up the tree rooted at path `p`. -/
def fsFind : FS → String → Option FTree
  | [], _ => none
  | (q, t) :: rest, p => if p = q then some t else fsFind rest p

/-- Python `shutil.copytree src dst`: fails (raising an error the
caller catches as `OSError`) when `src` does not exist or `dst` already
exists, otherwise records the whole tree of `src` at `dst`. -/
def copytree (fs : FS) (src dst : String) : Option FS :=
  match fsFind fs src with
  | none => none
  | some t =>
    match fsFind fs dst with
    | some _ => none
    | none => some ((dst, t) :: fs)

/-- Message logged when one of the two `shutil.copytree` calls of
`install_step` raises `OSError`. -/
def copyMsg : String := "Failed to copy obj and unpacked sources to install dir"

/-- `EB_PSI.install_step`: first run the inherited install step
(modelled as a host-provided filesystem transformation), then copy
`<builddir>/obj` to `<installdir>/obj` and `<builddir>/<psi_srcdir>` to
`<installdir>/<psi_srcdir>`; a failed copy is a fatal logged error.
When the `psi_srcdir` field is still `None`, Python's
`os.path.join(self.builddir, None)` raises an uncaught `TypeError`,
modelled as an error as well (it aborts the step). -/
def install_step (superInstall : FS → FS) (builddir installdir : String)
    (st : PsiState) (fs : FS) : Except String FS :=
  match copytree (superInstall fs) (osPathJoin builddir "obj") (osPathJoin installdir "obj") with
  | none => Except.error copyMsg
  | some fsA =>
    match st.psi_srcdir with
    | none => Except.error "TypeError: psi_srcdir is None"
    | some srcdir =>
      match copytree fsA (osPathJoin builddir srcdir) (osPathJoin installdir srcdir) with
      | none => Except.error copyMsg
      | some fsB => Except.ok fsB

/-- The `custom_paths` dictionary handed to the inherited sanity
check: required files and required directories. -/
structure SanityPaths where
  files : List String
  dirs : List String
deriving Repr, DecidableEq

/-- `EB_PSI.sanity_check_step`: the custom paths are the versioned
binary `bin/psi<version.split('.')[0]>` and the directories `include`
and `share/psi`. -/
def sanity_check_step (version : String) : SanityPaths :=
  { files := ["bin/psi" ++ pyMajorVersion version],
    dirs := ["include", "share/psi"] }

/-- `EB_PSI.make_module_extra`: the inherited module text followed by
the module generator's rendering of one `PSI4DATADIR` assignment.
`setEnvironment` is the host module generator's `set_environment`
method. -/
def make_module_extra (superTxt : String)
    (setEnvironment : String → String → String) : String :=
  superTxt ++ setEnvironment "PSI4DATADIR" "$root/share/psi"

/-- The framework constant `BUILD` marking an easyconfig parameter as
build-scoped. -/
def BUILD : String := "build"

/-- One easyconfig parameter definition: name, default value,
description and scope, as in the `(name, [default, descr, scope])`
entries passed to `extra_options`. -/
structure ExtraVar where
  name : String
  defaultValue : String
  descr : String
  scope : String
deriving Repr, DecidableEq

/-- The `extra_vars` list built inside `EB_PSI.extra_options`. -/
def psi_extra_vars : List ExtraVar :=
  [{ name := "runtest",
     defaultValue := "tests TESTFLAGS='-u -q'",
     descr := "Run tests included with PSI, without interruption.",
     scope := BUILD }]

/-- Modelled from the spec: `ConfigureMake.extra_options` lives in this
repository outside the provided sources; it returns the inherited
easyconfig parameter definitions together with every passed extra
parameter definition. -/
def configureMake_extra_options (inherited extra : List ExtraVar) : List ExtraVar :=
  inherited ++ extra

/-- `EB_PSI.extra_options`: delegate to `ConfigureMake.extra_options`
with the PSI-specific `extra_vars`. -/
def psi_extra_options (inherited : List ExtraVar) : List ExtraVar :=
  configureMake_extra_options inherited psi_extra_vars

/-- A host instance with every dependency available, used to
instantiate the theorems at concrete inputs. -/
def hostAll : Host :=
  { builddir := "/tmp/build"
    installdir := "/opt/soft/PSI/4.0"
    startDir := "/tmp/build/psi4.0//"
    version := "4.0"
    usempi := true
    getenv := fun v => some ("$" ++ v)
    softwareRoot := fun n =>
      if n = "Python" then some "/opt/python"
      else if n = "Boost" then some "/opt/boost"
      else none
    makedirsOk := true
    chdirOk := true }

/-- A host instance whose `usempi` toolchain option is off. -/
def hostNoMpi : Host :=
  { hostAll with usempi := false }

/-- A host instance on which neither the `Python` nor the `Boost`
module is available. -/
def hostNoDeps : Host :=
  { hostAll with softwareRoot := fun _ => none }

/-- Instance state after a configure run with source directory `psi`,
used to instantiate the install-step theorem. -/
def witState : PsiState :=
  { psi_srcdir := some "psi",
    install_psi_objdir := some "/i/obj",
    install_psi_srcdir := some "/i/psi" }

/-- A concrete build-directory filesystem holding the object directory
and the unpacked sources. -/
def witFs : FS :=
  [("/b/obj", FTree.dir [("Makefile", FTree.file "all:")]),
   ("/b/psi", FTree.file "source")]

/-- The filesystem produced by `install_step` on `witFs`. -/
def witFsOut : FS :=
  ("/i/psi", FTree.file "source") :: ("/i/obj", FTree.dir [("Makefile", FTree.file "all:")]) :: witFs

/-- Characters satisfying the predicate are all taken until the first
dot, which stops `List.takeWhile`. -/
theorem takeWhile_ne_dot_append (a b : List Char) (h : ∀ c ∈ a, c ≠ '.') :
    ((a ++ '.' :: b).takeWhile fun c => c != '.') = a := by
  induction a with
  | nil => simp [List.takeWhile]
  | cons c a ih =>
    have hc : (c != '.') = true := by
      simpa using h c (by simp)
    simp only [List.cons_append, List.takeWhile_cons, hc, if_true, List.cons.injEq, true_and]
    exact ih fun x hx => h x (by simp [hx])

/-- C7: `make_module_extra` returns the inherited module text with
exactly one additional environment-variable assignment appended, the
module generator's rendering of `PSI4DATADIR` set to
`$root/share/psi`. -/
theorem psi_make_module_extra_appends_datadir
    (superTxt : String) (setEnvironment : String → String → String) :
    make_module_extra superTxt setEnvironment =
      superTxt ++ setEnvironment "PSI4DATADIR" "$root/share/psi" := rfl

/-- C10: `extra_options` always registers the easyconfig parameter
`runtest`, build-scoped, with default value `tests TESTFLAGS='-u -q'`,
whatever parameters are inherited. -/
theorem psi_extra_options_registers_runtest (inherited : List ExtraVar) :
    { name := "runtest",
      defaultValue := "tests TESTFLAGS='-u -q'",
      descr := "Run tests included with PSI, without interruption.",
      scope := BUILD : ExtraVar } ∈ psi_extra_options inherited ∧
    BUILD = "build" := by
  constructor
  · simp [psi_extra_options, configureMake_extra_options, psi_extra_vars]
  · rfl

/-- C6: the custom paths handed to the inherited sanity check are
exactly the file `bin/psi<major>` — the version's leading component
before the first dot — and the directories `include` and `share/psi`. -/
theorem psi_sanity_custom_paths (a b : List Char) (h : ∀ c ∈ a, c ≠ '.') :
    sanity_check_step (String.mk (a ++ '.' :: b)) =
      { files := ["bin/psi" ++ String.mk a], dirs := ["include", "share/psi"] } := by
  simp only [sanity_check_step, pyMajorVersion, SanityPaths.mk.injEq]
  constructor
  · rw [takeWhile_ne_dot_append a b h]
  · trivial

/-- Witness for C6 at the concrete version `4.0`. -/
theorem psi_sanity_custom_paths_check :
    (∀ c ∈ (['4'] : List Char), c ≠ '.') ∧
    sanity_check_step (String.mk (['4'] ++ '.' :: ['0'])) =
      { files := ["bin/psi" ++ String.mk ['4']], dirs := ["include", "share/psi"] } :=
  ⟨by decide, psi_sanity_custom_paths ['4'] ['0'] (by decide)⟩

/-- C5: when `install_step` succeeds, the install tree holds, under
`obj` and under the unpacked-source name, exact copies of the build
directory's subdirectories as they stood after the inherited install
step, and both exist. -/
theorem psi_install_retains_obj_and_src
    (superInstall : FS → FS) (builddir installdir srcdir : String)
    (st : PsiState) (fs fsOut : FS)
    (hsrc : st.psi_srcdir = some srcdir)
    (hne : osPathJoin builddir srcdir ≠ osPathJoin installdir "obj")
    (hok : install_step superInstall builddir installdir st fs = Except.ok fsOut) :
    fsFind fsOut (osPathJoin installdir "obj") =
      fsFind (superInstall fs) (osPathJoin builddir "obj") ∧
    fsFind fsOut (osPathJoin installdir srcdir) =
      fsFind (superInstall fs) (osPathJoin builddir srcdir) ∧
    (fsFind fsOut (osPathJoin installdir "obj")).isSome = true ∧
    (fsFind fsOut (osPathJoin installdir srcdir)).isSome = true := by
  unfold install_step at hok
  rcases hc1 : copytree (superInstall fs) (osPathJoin builddir "obj") (osPathJoin installdir "obj")
    with _ | fsA
  · rw [hc1] at hok; exact absurd hok (by simp)
  rw [hc1, hsrc] at hok
  dsimp only at hok
  rcases hc2 : copytree fsA (osPathJoin builddir srcdir) (osPathJoin installdir srcdir)
    with _ | fsB
  · rw [hc2] at hok; exact absurd hok (by simp)
  rw [hc2] at hok
  have hout : fsB = fsOut := by simpa using hok
  unfold copytree at hc1 hc2
  rcases hs1 : fsFind (superInstall fs) (osPathJoin builddir "obj") with _ | t1
  · rw [hs1] at hc1; exact absurd hc1 (by simp)
  rw [hs1] at hc1
  rcases hd1 : fsFind (superInstall fs) (osPathJoin installdir "obj") with _ | u1
  swap
  · rw [hd1] at hc1; exact absurd hc1 (by simp)
  rw [hd1] at hc1
  have hA : fsA = (osPathJoin installdir "obj", t1) :: superInstall fs := by
    simpa using hc1.symm
  rcases hs2 : fsFind fsA (osPathJoin builddir srcdir) with _ | t2
  · rw [hs2] at hc2; exact absurd hc2 (by simp)
  rw [hs2] at hc2
  rcases hd2 : fsFind fsA (osPathJoin installdir srcdir) with _ | u2
  swap
  · rw [hd2] at hc2; exact absurd hc2 (by simp)
  rw [hd2] at hc2
  have hB : fsB = (osPathJoin installdir srcdir, t2) :: fsA := by
    simpa using hc2.symm
  have hne2 : osPathJoin installdir srcdir ≠ osPathJoin installdir "obj" := by
    intro he
    rw [hA, he] at hd2
    simp [fsFind] at hd2
  have hsrc2 : fsFind (superInstall fs) (osPathJoin builddir srcdir) = some t2 := by
    rw [hA] at hs2
    simpa [fsFind, hne] using hs2
  subst hout hB hA
  refine ⟨?_, ?_, ?_, ?_⟩
  · simp [fsFind, Ne.symm hne2, hs1]
  · simp [fsFind, hsrc2]
  · simp [fsFind, Ne.symm hne2]
  · simp [fsFind]

/-- Witness for C5 on a concrete two-entry build filesystem. -/
theorem psi_install_retains_obj_and_src_check :
    witState.psi_srcdir = some "psi" ∧
    osPathJoin "/b" "psi" ≠ osPathJoin "/i" "obj" ∧
    (fsFind witFsOut (osPathJoin "/i" "obj") = fsFind (id witFs) (osPathJoin "/b" "obj") ∧
     fsFind witFsOut (osPathJoin "/i" "psi") = fsFind (id witFs) (osPathJoin "/b" "psi") ∧
     (fsFind witFsOut (osPathJoin "/i" "obj")).isSome = true ∧
     (fsFind witFsOut (osPathJoin "/i" "psi")).isSome = true) :=
  ⟨rfl, by decide,
    psi_install_retains_obj_and_src id "/b" "/i" "psi" witState witFs witFsOut rfl (by decide) rfl⟩

/-- C1: when `get_software_root` finds no installation root for
`Python` or for `Boost`, `configure_step` aborts with a fatal logged
error and the inherited configure step — the only place a configure
command is executed — is never invoked. -/
theorem psi_configure_missing_dep_is_fatal (h : Host)
    (hdep : h.softwareRoot "Python" = none ∨ h.softwareRoot "Boost" = none) :
    (∃ m, (configure_step h).result = Except.error m ∧
      Effect.logError m ∈ (configure_step h).trace) ∧
    ∀ p, Effect.superConfigureStep p ∉ (configure_step h).trace := by
  cases hmk : h.makedirsOk with
  | false =>
    exact ⟨⟨prepMsg, by simp [configure_step, hmk], by simp [configure_step, hmk]⟩,
      fun p => by simp [configure_step, hmk]⟩
  | true =>
    cases hcd : h.chdirOk with
    | false =>
      exact ⟨⟨prepMsg, by simp [configure_step, hmk, hcd], by simp [configure_step, hmk, hcd]⟩,
        fun p => by simp [configure_step, hmk, hcd]⟩
    | true =>
      cases hp : pyFalsy (h.softwareRoot "Python") with
      | true =>
        exact ⟨⟨"Python module not loaded.", by simp [configure_step, hmk, hcd, hp],
          by simp [configure_step, hmk, hcd, hp]⟩,
          fun p => by simp [configure_step, hmk, hcd, hp]⟩
      | false =>
        have hb : pyFalsy (h.softwareRoot "Boost") = true := by
          rcases hdep with hd | hd
          · rw [hd] at hp; exact absurd hp (by simp [pyFalsy])
          · rw [hd]; rfl
        exact ⟨⟨"Boost module not loaded.", by simp [configure_step, hmk, hcd, hp, hb],
          by simp [configure_step, hmk, hcd, hp, hb]⟩,
          fun p => by simp [configure_step, hmk, hcd, hp, hb]⟩

/-- Witness for C1: a host on which no software root resolves. -/
theorem psi_configure_missing_dep_is_fatal_check :
    (hostNoDeps.softwareRoot "Python" = none ∨ hostNoDeps.softwareRoot "Boost" = none) ∧
    ((∃ m, (configure_step hostNoDeps).result = Except.error m ∧
        Effect.logError m ∈ (configure_step hostNoDeps).trace) ∧
      ∀ p, Effect.superConfigureStep p ∉ (configure_step hostNoDeps).trace) :=
  ⟨Or.inl rfl, psi_configure_missing_dep_is_fatal hostNoDeps (Or.inl rfl)⟩

/-- C2: once the out-of-source object directory is prepared, the
`--with-fc` configure option takes its value from `F77_SEQ` when the
toolchain option `usempi` is on, and from `F77` when it is off. -/
theorem psi_configure_fc_var_matches_usempi (h : Host)
    (hmk : h.makedirsOk = true) (hcd : h.chdirOk = true) :
    (h.usempi = true →
      Effect.updateConfigopts ("--with-fc='" ++ pyStrOfOpt (h.getenv "F77_SEQ") ++ "'")
        ∈ (configure_step h).trace) ∧
    (h.usempi = false →
      Effect.updateConfigopts ("--with-fc='" ++ pyStrOfOpt (h.getenv "F77") ++ "'")
        ∈ (configure_step h).trace) := by
  constructor <;> intro hm <;>
    by_cases hp : pyFalsy (h.softwareRoot "Python") <;>
    by_cases hb : pyFalsy (h.softwareRoot "Boost") <;>
    simp [configure_step, hmk, hcd, hm, hp, hb]

/-- Witness for C2: with MPI on, the sequential variable is used; on
`hostNoMpi`, the plain `F77` variable is. -/
theorem psi_configure_fc_var_matches_usempi_check :
    hostAll.makedirsOk = true ∧ hostAll.usempi = true ∧
    Effect.updateConfigopts "--with-fc='$F77_SEQ'" ∈ (configure_step hostAll).trace ∧
    hostNoMpi.usempi = false ∧
    Effect.updateConfigopts "--with-fc='$F77'" ∈ (configure_step hostNoMpi).trace :=
  ⟨rfl, rfl, (psi_configure_fc_var_matches_usempi hostAll rfl rfl).1 rfl,
    rfl, (psi_configure_fc_var_matches_usempi hostNoMpi rfl rfl).2 rfl⟩

/-- C3: the `--with-opt` configure option carries the current `CFLAGS`
value followed by the literal ` -DMPICH_IGNORE_CXX_SEEK`, so its value
contains that define as a substring appended after `CFLAGS`. -/
theorem psi_configure_opt_has_mpich_define (h : Host)
    (hmk : h.makedirsOk = true) (hcd : h.chdirOk = true) :
    ∃ v, Effect.updateConfigopts v ∈ (configure_step h).trace ∧
      v = "--with-opt='" ++ pyStrOfOpt (h.getenv "CFLAGS") ++ " -DMPICH_IGNORE_CXX_SEEK'" ∧
      ∃ l r, v = l ++ "-DMPICH_IGNORE_CXX_SEEK" ++ r := by
  refine ⟨"--with-opt='" ++ pyStrOfOpt (h.getenv "CFLAGS") ++ " -DMPICH_IGNORE_CXX_SEEK'",
    ?_, rfl, "--with-opt='" ++ pyStrOfOpt (h.getenv "CFLAGS") ++ " ", "'", ?_⟩
  · by_cases hp : pyFalsy (h.softwareRoot "Python") <;>
      by_cases hb : pyFalsy (h.softwareRoot "Boost") <;>
      simp [configure_step, hmk, hcd, hp, hb]
  · simp only [String.append_assoc]
    rfl

/-- Witness for C3 on the concrete host `hostAll`. -/
theorem psi_configure_opt_has_mpich_define_check :
    hostAll.makedirsOk = true ∧
    ∃ v, Effect.updateConfigopts v ∈ (configure_step hostAll).trace ∧
      v = "--with-opt='$CFLAGS -DMPICH_IGNORE_CXX_SEEK'" ∧
      ∃ l r, v = l ++ "-DMPICH_IGNORE_CXX_SEEK" ++ r :=
  ⟨rfl, psi_configure_opt_has_mpich_define hostAll rfl rfl⟩

/-- C4: a fully successful `configure_step` extends the configure
options with exactly these nine flags, in this order, the first six
taking their values from `CC`, `CXX`, `F77` or `F77_SEQ`, `LDFLAGS`,
`LIBBLAS_MT` and `LIBLAPACK_MT`. -/
theorem psi_configure_flags_in_order (h : Host)
    (hmk : h.makedirsOk = true) (hcd : h.chdirOk = true)
    (hpy : pyFalsy (h.softwareRoot "Python") = false)
    (hbo : pyFalsy (h.softwareRoot "Boost") = false) :
    configopts h =
      ["--with-cc='" ++ pyStrOfOpt (h.getenv "CC") ++ "'",
       "--with-cxx='" ++ pyStrOfOpt (h.getenv "CXX") ++ "'",
       "--with-fc='" ++ pyStrOfOpt (h.getenv (if h.usempi then "F77_SEQ" else "F77")) ++ "'",
       "--with-libdirs='" ++ pyStrOfOpt (h.getenv "LDFLAGS") ++ "'",
       "--with-blas='" ++ pyStrOfOpt (h.getenv "LIBBLAS_MT") ++ "'",
       "--with-lapack='" ++ pyStrOfOpt (h.getenv "LIBLAPACK_MT") ++ "'",
       "--with-opt='" ++ pyStrOfOpt (h.getenv "CFLAGS") ++ " -DMPICH_IGNORE_CXX_SEEK'",
       "--with-boost=" ++ pyStrOfOpt (h.softwareRoot "Boost"),
       "--with-plugins"] := by
  by_cases hm : h.usempi <;>
    simp [configopts, configure_step, hmk, hcd, hpy, hbo, hm, configoptOf]

/-- Witness for C4 on the concrete host `hostAll`. -/
theorem psi_configure_flags_in_order_check :
    pyFalsy (hostAll.softwareRoot "Python") = false ∧
    configopts hostAll =
      ["--with-cc='$CC'", "--with-cxx='$CXX'", "--with-fc='$F77_SEQ'",
       "--with-libdirs='$LDFLAGS'", "--with-blas='$LIBBLAS_MT'",
       "--with-lapack='$LIBLAPACK_MT'",
       "--with-opt='$CFLAGS -DMPICH_IGNORE_CXX_SEEK'",
       "--with-boost=/opt/boost", "--with-plugins"] :=
  ⟨rfl, (psi_configure_flags_in_order hostAll rfl rfl rfl rfl).trans rfl⟩

/-- C8: every run of `configure_step` makes `<builddir>/obj` and
changes into it as its first two actions; the inherited configure step
can only come later, and a preparation failure is a fatal logged error
with no inherited configure call at all. -/
theorem psi_configure_prepares_objdir_first (h : Host) :
    (h.makedirsOk = true → h.chdirOk = true →
      (configure_step h).trace.take 2 =
        [Effect.makedirs (osPathJoin h.builddir "obj"),
         Effect.chdir (osPathJoin h.builddir "obj")]) ∧
    ((h.makedirsOk = false ∨ h.chdirOk = false) →
      (∃ m, (configure_step h).result = Except.error m ∧
        Effect.logError m ∈ (configure_step h).trace) ∧
      ∀ p, Effect.superConfigureStep p ∉ (configure_step h).trace) ∧
    (∀ p i, (configure_step h).trace.get? i = some (Effect.superConfigureStep p) → 2 ≤ i) := by
  refine ⟨?_, ?_, ?_⟩
  · intro hmk hcd
    by_cases hp : pyFalsy (h.softwareRoot "Python") <;>
      by_cases hb : pyFalsy (h.softwareRoot "Boost") <;>
      simp [configure_step, hmk, hcd, hp, hb]
  · intro hfail
    rcases hfail with hmk | hcd
    · exact ⟨⟨prepMsg, by simp [configure_step, hmk], by simp [configure_step, hmk]⟩,
        fun p => by simp [configure_step, hmk]⟩
    · cases hmk : h.makedirsOk with
      | false =>
        exact ⟨⟨prepMsg, by simp [configure_step, hmk], by simp [configure_step, hmk]⟩,
          fun p => by simp [configure_step, hmk]⟩
      | true =>
        exact ⟨⟨prepMsg, by simp [configure_step, hmk, hcd], by simp [configure_step, hmk, hcd]⟩,
          fun p => by simp [configure_step, hmk, hcd]⟩
  · intro p i hget
    rcases i with _ | _ | i
    · exfalso
      revert hget
      cases hmk : h.makedirsOk with
      | false => simp [configure_step, hmk]
      | true =>
        cases hcd : h.chdirOk with
        | false => simp [configure_step, hmk, hcd]
        | true =>
          by_cases hp : pyFalsy (h.softwareRoot "Python") <;>
            by_cases hb : pyFalsy (h.softwareRoot "Boost") <;>
            simp [configure_step, hmk, hcd, hp, hb]
    · exfalso
      revert hget
      cases hmk : h.makedirsOk with
      | false => simp [configure_step, hmk]
      | true =>
        cases hcd : h.chdirOk with
        | false => simp [configure_step, hmk, hcd]
        | true =>
          by_cases hp : pyFalsy (h.softwareRoot "Python") <;>
            by_cases hb : pyFalsy (h.softwareRoot "Boost") <;>
            simp [configure_step, hmk, hcd, hp, hb]
    · omega

/-- C9: a fully successful `configure_step` leaves this exact effect
trace — exporting `PSI_OBJ_INSTALL_DIR` and `PSI_SRC_INSTALL_DIR`
before the inherited configure call, which comes last — and returns the
instance state whose three fields (all `None` after `__init__`) now
hold the source-directory name and the two install-time paths. -/
theorem psi_configure_exports_install_paths (h : Host)
    (hmk : h.makedirsOk = true) (hcd : h.chdirOk = true)
    (hpy : pyFalsy (h.softwareRoot "Python") = false)
    (hbo : pyFalsy (h.softwareRoot "Boost") = false) :
    EB_PSI_init.psi_srcdir = none ∧
    EB_PSI_init.install_psi_objdir = none ∧
    EB_PSI_init.install_psi_srcdir = none ∧
    (configure_step h).trace =
      [Effect.makedirs (osPathJoin h.builddir "obj"),
       Effect.chdir (osPathJoin h.builddir "obj"),
       Effect.updateConfigopts ("--with-cc='" ++ pyStrOfOpt (h.getenv "CC") ++ "'"),
       Effect.updateConfigopts ("--with-cxx='" ++ pyStrOfOpt (h.getenv "CXX") ++ "'"),
       Effect.updateConfigopts ("--with-fc='" ++
         pyStrOfOpt (h.getenv (if h.usempi then "F77_SEQ" else "F77")) ++ "'"),
       Effect.updateConfigopts ("--with-libdirs='" ++ pyStrOfOpt (h.getenv "LDFLAGS") ++ "'"),
       Effect.updateConfigopts ("--with-blas='" ++ pyStrOfOpt (h.getenv "LIBBLAS_MT") ++ "'"),
       Effect.updateConfigopts ("--with-lapack='" ++ pyStrOfOpt (h.getenv "LIBLAPACK_MT") ++ "'"),
       Effect.updateConfigopts ("--with-opt='" ++ pyStrOfOpt (h.getenv "CFLAGS") ++
         " -DMPICH_IGNORE_CXX_SEEK'"),
       Effect.setvar "PYTHON"
         (osPathJoin (osPathJoin (pyStrOfOpt (h.softwareRoot "Python")) "bin") "python"),
       Effect.updateConfigopts ("--with-boost=" ++ pyStrOfOpt (h.softwareRoot "Boost")),
       Effect.updateConfigopts "--with-plugins",
       Effect.setvar "PSI_OBJ_INSTALL_DIR" (osPathJoin h.installdir "obj"),
       Effect.setvar "PSI_SRC_INSTALL_DIR"
         (osPathJoin h.installdir (osPathBasename (rstripSlash h.startDir))),
       Effect.superConfigureStep h.startDir] ∧
    (configure_step h).result = Except.ok
      { psi_srcdir := some (osPathBasename (rstripSlash h.startDir)),
        install_psi_objdir := some (osPathJoin h.installdir "obj"),
        install_psi_srcdir :=
          some (osPathJoin h.installdir (osPathBasename (rstripSlash h.startDir))) } := by
  refine ⟨rfl, rfl, rfl, ?_, ?_⟩ <;>
    by_cases hm : h.usempi <;>
    simp [configure_step, hmk, hcd, hpy, hbo, hm]

/-- Witness for C9 on the concrete host `hostAll`. -/
theorem psi_configure_exports_install_paths_check :
    hostAll.makedirsOk = true ∧
    (configure_step hostAll).trace =
      [Effect.makedirs "/tmp/build/obj",
       Effect.chdir "/tmp/build/obj",
       Effect.updateConfigopts "--with-cc='$CC'",
       Effect.updateConfigopts "--with-cxx='$CXX'",
       Effect.updateConfigopts "--with-fc='$F77_SEQ'",
       Effect.updateConfigopts "--with-libdirs='$LDFLAGS'",
       Effect.updateConfigopts "--with-blas='$LIBBLAS_MT'",
       Effect.updateConfigopts "--with-lapack='$LIBLAPACK_MT'",
       Effect.updateConfigopts "--with-opt='$CFLAGS -DMPICH_IGNORE_CXX_SEEK'",
       Effect.setvar "PYTHON" "/opt/python/bin/python",
       Effect.updateConfigopts "--with-boost=/opt/boost",
       Effect.updateConfigopts "--with-plugins",
       Effect.setvar "PSI_OBJ_INSTALL_DIR" "/opt/soft/PSI/4.0/obj",
       Effect.setvar "PSI_SRC_INSTALL_DIR" "/opt/soft/PSI/4.0/psi4.0",
       Effect.superConfigureStep "/tmp/build/psi4.0//"] ∧
    (configure_step hostAll).result = Except.ok
      { psi_srcdir := some "psi4.0",
        install_psi_objdir := some "/opt/soft/PSI/4.0/obj",
        install_psi_srcdir := some "/opt/soft/PSI/4.0/psi4.0" } :=
  ⟨rfl,
    ((psi_configure_exports_install_paths hostAll rfl rfl rfl rfl).2.2.2.1).trans rfl,
    ((psi_configure_exports_install_paths hostAll rfl rfl rfl rfl).2.2.2.2).trans rfl⟩

end Psi
